import Mathlib

/-!
# Verification of the allsend core (adapter contract and channel hub)

A shallow embedding of `packages/core/src/types.ts`, `adapter.ts` and
`hub.ts`. JavaScript strings are modelled as `List Char`; the emitter
side effects (signals, adapter calls) are made explicit as values
returned next to each operation's result.
-/

/-- JavaScript strings, modelled as lists of characters. -/
abbrev JStr := List Char

/-- `String.prototype.split(sep)` for a single-character separator:
`"".split(':') = [""]`, `":".split(':') = ["", ""]`, empty segments are
kept. -/
def splitOnChar (sep : Char) : JStr → List JStr
  | [] => [[]]
  | ch :: rest =>
    let r := splitOnChar sep rest
    if ch = sep then [] :: r
    else
      match r with
      | [] => [[ch]]
      | s :: ss => (ch :: s) :: ss

/-- A JavaScript `Error`, reduced to its message. -/
structure JsError where
  message : JStr
deriving DecidableEq, Repr

/-- `type ChannelType = 'telegram' | 'discord' | 'whatsapp' | 'imessage'` -/
inductive ChannelType
  | telegram | discord | whatsapp | imessage
deriving DecidableEq, Repr

/-- String interpolation of a `ChannelType` literal. -/
def ChannelType.toChars : ChannelType → JStr
  | .telegram => "telegram".data
  | .discord => "discord".data
  | .whatsapp => "whatsapp".data
  | .imessage => "imessage".data

/-- `parseMode?: 'text' | 'markdown' | 'html'` -/
inductive ParseMode
  | text | markdown | html
deriving DecidableEq, Repr

/-- `interface SendMessageOptions` (all fields optional). -/
structure SendMessageOptions where
  replyTo : Option JStr := none
  threadId : Option JStr := none
  parseMode : Option ParseMode := none
  silent : Option Bool := none
deriving DecidableEq, Repr

/-- `interface TextEntity` (`types.ts`); entity kind collapsed to its tag. -/
structure TextEntity where
  kind : JStr
  offset : Int
  length : Int
  data : Option JStr := none
deriving DecidableEq, Repr

/-- `type MessageContent = TextContent | ImageContent | ...`: the closed
variant union from `types.ts`. JavaScript `number` fields are modelled
as `Int` (no claim inspects them). -/
inductive MessageContent
  | text (text : JStr) (entities : Option (List TextEntity))
  | image (url : JStr) (caption : Option JStr) (width height size : Option Int)
      (mimeType : Option JStr)
  | video (url : JStr) (caption : Option JStr) (width height duration size : Option Int)
      (mimeType thumbnailUrl : Option JStr)
  | audio (url : JStr) (duration size : Option Int) (mimeType : Option JStr)
      (isVoiceNote : Option Bool) (transcription : Option JStr)
  | file (url filename mimeType : JStr) (size : Option Int) (caption : Option JStr)
  | location (latitude longitude : Int) (title address : Option JStr)
  | sticker (url : JStr) (emoji setName : Option JStr) (isAnimated : Option Bool)
  | reaction (emoji targetMessageId : JStr)
  | contact (name : JStr) (phone email vCard : Option JStr)
deriving DecidableEq, Repr

/-- `interface UnifiedSender` -/
structure UnifiedSender where
  id : JStr
  platformId : JStr
  displayName : JStr
  username : Option JStr := none
  avatarUrl : Option JStr := none
  isBot : Option Bool := none
deriving DecidableEq, Repr

/-- `interface UnifiedMessage`; `Date` fields are epoch milliseconds,
the opaque `raw` payload is dropped. -/
structure UnifiedMessage where
  id : JStr
  channelType : ChannelType
  channelId : JStr
  platformMessageId : JStr
  conversationId : JStr
  platformConversationId : JStr
  sender : UnifiedSender
  content : MessageContent
  timestamp : Nat
  editedAt : Option Nat := none
  replyToId : Option JStr := none
  threadId : Option JStr := none
  isOutgoing : Bool
deriving DecidableEq, Repr

/-- `interface SendResult { success; message?; error? }` -/
structure SendResult where
  success : Bool
  message : Option UnifiedMessage := none
  error : Option JsError := none
deriving DecidableEq, Repr

/-- `interface ChannelConfig` (credentials/metadata are opaque and
dropped). -/
structure ChannelConfig where
  id : JStr
  type : ChannelType
  name : JStr
  enabled : Bool
deriving DecidableEq, Repr

/-- `type AdapterState = 'disconnected' | 'connecting' | 'connected' |
'reconnecting' | 'error'` -/
inductive AdapterState
  | disconnected | connecting | connected | reconnecting | error
deriving DecidableEq, Repr

/-- Signals an adapter emits (`AdapterEvents` minus the message/event
streams, which no claim touches). -/
inductive AdapterSignal
  | connected
  | disconnected (reason : Option JStr)
  | error (e : JsError) (context : Option JStr)
deriving DecidableEq, Repr

namespace BaseAdapter

/-- `BaseAdapter.setState(newState, reason?)`: given the current state,
returns the updated `this.state` together with the emitted signals. -/
def setState (state : AdapterState) (newState : AdapterState)
    (reason : Option JStr) : AdapterState × List AdapterSignal :=
  let oldState := state
  if newState = .connected ∧ oldState ≠ .connected then
    (newState, [.connected])
  else if newState = .disconnected ∧ oldState = .connected then
    (newState, [.disconnected reason])
  else
    (newState, [])

/-- `BaseAdapter.emitError(error, context?)`: emits the `error` signal. -/
def emitError (error : JsError) (context : Option JStr) : List AdapterSignal :=
  [.error error context]

/-- `BaseAdapter.generateConversationId(platformConversationId)`:
`` `${this.channelType}:${this.id}:${platformConversationId}` ``. -/
def generateConversationId (channelType : ChannelType) (id : JStr)
    (platformConversationId : JStr) : JStr :=
  channelType.toChars ++ ':' :: id ++ ':' :: platformConversationId

/-- Default `BaseAdapter.addReaction`: always rejects. -/
def addReaction (channelType : ChannelType) (_messageId _emoji : JStr) :
    Except JsError Unit :=
  .error ⟨"Reactions not supported by ".data ++ channelType.toChars⟩

/-- Default `BaseAdapter.removeReaction`: always rejects. -/
def removeReaction (channelType : ChannelType) (_messageId _emoji : JStr) :
    Except JsError Unit :=
  .error ⟨"Reactions not supported by ".data ++ channelType.toChars⟩

end BaseAdapter

/-- An adapter instance as the hub sees it: its config, connection
state, the abstract `sendMessage` implementation, and whether its
abstract `disconnect` rejects (and with what error). -/
structure ModelAdapter where
  channelType : ChannelType
  config : ChannelConfig
  state : AdapterState
  sendMessage : JStr → MessageContent → Option SendMessageOptions → SendResult
  disconnectError : Option JsError := none

/-- `get id()` -/
def ModelAdapter.id (a : ModelAdapter) : JStr := a.config.id

/-- `get isConnected()` -/
def ModelAdapter.isConnected (a : ModelAdapter) : Bool :=
  a.state = .connected

/-- JavaScript falsiness of a possibly-`undefined` string
(`undefined` and `""` are falsy). -/
def jsFalsy : Option JStr → Bool
  | none => true
  | some s => s.isEmpty

/-- A recorded invocation of some adapter's `sendMessage`. -/
structure SendCall where
  adapterId : JStr
  platformConversationId : JStr
  content : MessageContent
  options : Option SendMessageOptions
deriving DecidableEq, Repr

/-- `Map.prototype.get`: the value of the first entry whose key equals
`k`, else `undefined`. -/
def mapGet {α : Type} : List (JStr × α) → JStr → Option α
  | [], _ => none
  | (k', v) :: es, k => if k = k' then some v else mapGet es k

/-- Observable hub side effects: adapter lifecycle calls, listener
wiring and hub-level signals. -/
inductive HubEffect
  | setupListeners (adapterId : JStr)
  | connectCall (adapterId : JStr)
  | disconnectCall (adapterId : JStr)
  | adapterError (adapterId : JStr) (e : JsError) (context : Option JStr)
  | emitStarted
  | emitStopped
deriving DecidableEq, Repr

/-- `ChannelHub` state: the adapter registry (a `Map`, modelled as an
insertion-ordered association list with unique keys) and the running
flag. -/
structure ChannelHub where
  adapters : List (JStr × ModelAdapter)
  running : Bool

namespace ChannelHub

/-- The destructuring
`const [channelType, adapterId, platformConversationId] = conversationId.split(':')`
in `ChannelHub.send`, restricted to the two bindings that are used:
missing positions are `undefined` (`none`). -/
def parseConversationId (conversationId : JStr) : Option JStr × Option JStr :=
  let parts := splitOnChar ':' conversationId
  (parts.get? 1, parts.get? 2)

/-- `ChannelHub.send(conversationId, content, options?)`, paired with
the list of `sendMessage` invocations it performs. -/
def send (hub : ChannelHub) (conversationId : JStr) (content : MessageContent)
    (options : Option SendMessageOptions) : SendResult × List SendCall :=
  let parsed := parseConversationId conversationId
  if jsFalsy parsed.1 ∨ jsFalsy parsed.2 then
    (⟨false, none, some ⟨"Invalid conversation ID format: ".data ++ conversationId⟩⟩, [])
  else
    let adapterId := parsed.1.getD []
    let platformConversationId := parsed.2.getD []
    match mapGet hub.adapters adapterId with
    | none =>
      (⟨false, none, some ⟨"Adapter not found: ".data ++ adapterId⟩⟩, [])
    | some adapter =>
      if adapter.isConnected then
        (adapter.sendMessage platformConversationId content options,
         [⟨adapterId, platformConversationId, content, options⟩])
      else
        (⟨false, none, some ⟨"Adapter ".data ++ adapterId ++ " is not connected".data⟩⟩, [])

/-- A failure entry of a broadcast: `{ adapterId, error }`. The
adapter id is `conversationId.split(':')[1]`, which at runtime may be
`undefined`. -/
structure BroadcastFailure where
  adapterId : Option JStr
  error : JsError
deriving DecidableEq, Repr

/-- `interface BroadcastResult` (`results` is a `Map` keyed by
conversation id). -/
structure BroadcastResult where
  totalSent : Nat
  results : List (JStr × SendResult)
  failures : List BroadcastFailure
deriving DecidableEq, Repr

/-- `Map.prototype.set`: replace in place if the key exists, else
append. -/
def mapSet (m : List (JStr × SendResult)) (k : JStr) (v : SendResult) :
    List (JStr × SendResult) :=
  if m.any (fun p => p.1 = k) then
    m.map (fun p => if p.1 = k then (k, v) else p)
  else
    m ++ [(k, v)]

/-- One iteration of the `broadcast` fan-out for a single conversation
id: run `send`, record the per-conversation result, bump `totalSent`
on success, push a failure entry when a failed result carries an
error. -/
def broadcastStep (hub : ChannelHub) (content : MessageContent)
    (options : Option SendMessageOptions)
    (acc : BroadcastResult × List SendCall) (conversationId : JStr) :
    BroadcastResult × List SendCall :=
  let result := (hub.send conversationId content options).1
  let calls := (hub.send conversationId content options).2
  let adapterId := (splitOnChar ':' conversationId).get? 1
  let withResult :=
    { acc.1 with results := mapSet acc.1.results conversationId result }
  let acc1 :=
    if result.success then
      { withResult with totalSent := withResult.totalSent + 1 }
    else
      match result.error with
      | some e => { withResult with failures := withResult.failures ++ [⟨adapterId, e⟩] }
      | none => withResult
  (acc1, acc.2 ++ calls)

/-- `ChannelHub.broadcast(content, conversationIds, options?)`. The
source awaits all per-destination sends via `Promise.all`; the shared
counters and lists are updated once per destination in completion
order, which only permutes the aggregation — modelled here in list
order. -/
def broadcast (hub : ChannelHub) (content : MessageContent)
    (conversationIds : List JStr) (options : Option SendMessageOptions) :
    BroadcastResult × List SendCall :=
  conversationIds.foldl (broadcastStep hub content options) (⟨0, [], []⟩, [])

/-- The options object `{...options, replyTo: originalMessage.platformMessageId}`
built by `ChannelHub.reply`. -/
def replyOptions (options : Option SendMessageOptions) (platformMessageId : JStr) :
    SendMessageOptions :=
  { options.getD {} with replyTo := some platformMessageId }

/-- `ChannelHub.reply(originalMessage, content, options?)`. -/
def reply (hub : ChannelHub) (originalMessage : UnifiedMessage)
    (content : MessageContent) (options : Option SendMessageOptions) :
    SendResult × List SendCall :=
  hub.send originalMessage.conversationId content
    (some (replyOptions options originalMessage.platformMessageId))

/-- `ChannelHub.registerAdapter(adapter)`: throws on a duplicate id
(leaving the hub untouched), otherwise wires the adapter's signals,
inserts it, and — when the hub is already running — fires a connect
attempt whose failure would be reported, not thrown. -/
def registerAdapter (hub : ChannelHub) (adapter : ModelAdapter) :
    Except JsError Unit × ChannelHub × List HubEffect :=
  if (mapGet hub.adapters adapter.id).isSome then
    (.error ⟨"Adapter with ID \"".data ++ adapter.id ++ "\" is already registered".data⟩,
     hub, [])
  else
    (.ok (),
     { hub with adapters := hub.adapters ++ [(adapter.id, adapter)] },
     .setupListeners adapter.id ::
       (if hub.running then [.connectCall adapter.id] else []))

/-- `ChannelHub.stop()`: no-op unless running; otherwise disconnects
every adapter (each rejection caught and re-emitted as
`adapter:error`), clears the running flag and emits `stopped`. -/
def stop (hub : ChannelHub) : ChannelHub × List HubEffect :=
  if hub.running then
    let effects := hub.adapters.foldr
      (fun p acc =>
        HubEffect.disconnectCall p.1 ::
          ((match p.2.disconnectError with
            | some e => [HubEffect.adapterError p.1 e (some "disconnect".data)]
            | none => []) ++ acc))
      []
    ({ hub with running := false }, effects ++ [.emitStopped])
  else
    (hub, [])

end ChannelHub

/-- A connected telegram adapter whose `sendMessage` always succeeds:
a concrete instance for evaluating the hub operations. -/
def okAdapter : ModelAdapter where
  channelType := .telegram
  config := ⟨"main".data, .telegram, "Main".data, true⟩
  state := .connected
  sendMessage := fun _ _ _ => ⟨true, none, none⟩

/-- A running hub holding just `okAdapter`. -/
def okHub : ChannelHub := ⟨[("main".data, okAdapter)], true⟩

/-- A connected whatsapp adapter whose `sendMessage` always fails
without populating the error field. -/
def silentFailAdapter : ModelAdapter where
  channelType := .whatsapp
  config := ⟨"quiet".data, .whatsapp, "Quiet".data, true⟩
  state := .connected
  sendMessage := fun _ _ _ => ⟨false, none, none⟩

/-- A running hub holding just `silentFailAdapter`. -/
def silentFailHub : ChannelHub := ⟨[("quiet".data, silentFailAdapter)], true⟩

/-- The adapter contract stated by the spec for `SendResult`: a failed
`sendMessage` always carries an error value. -/
def AdapterContract (hub : ChannelHub) : Prop :=
  ∀ p ∈ hub.adapters, ∀ (pid : JStr) (c : MessageContent)
    (o : Option SendMessageOptions),
    ((p.2).sendMessage pid c o).success = false →
    (((p.2).sendMessage pid c o).error).isSome = true

-- Sanity checks on the split model (JS `split` keeps empty segments).
example : splitOnChar ':' "a:b".data = ["a".data, "b".data] := by decide
example : splitOnChar ':' "".data = ["".data] := by decide
example : splitOnChar ':' ":".data = [[], []] := by decide
example : splitOnChar ':' "a:::b".data = ["a".data, [], [], "b".data] := by decide

/-! ## Lemmas about the split model -/

theorem splitOnChar_ne_nil (sep : Char) (l : JStr) : splitOnChar sep l ≠ [] := by
  cases l with
  | nil => simp [splitOnChar]
  | cons ch rest =>
    simp only [splitOnChar]
    split
    · simp
    · split <;> simp

theorem splitOnChar_not_mem (sep : Char) {l : JStr} (h : sep ∉ l) :
    splitOnChar sep l = [l] := by
  induction l with
  | nil => rfl
  | cons ch rest ih =>
    simp only [List.mem_cons, not_or] at h
    simp only [splitOnChar]
    rw [if_neg (fun hh => h.1 hh.symm), ih h.2]

theorem splitOnChar_append (sep : Char) {a : JStr} (b : JStr) (h : sep ∉ a) :
    splitOnChar sep (a ++ sep :: b) = a :: splitOnChar sep b := by
  induction a with
  | nil => simp [splitOnChar]
  | cons ch rest ih =>
    simp only [List.mem_cons, not_or] at h
    simp only [List.cons_append, splitOnChar, List.append_eq]
    rw [ih h.2, if_neg (fun hh => h.1 hh.symm)]

theorem colon_not_mem_channelType (ct : ChannelType) : ':' ∉ ct.toChars := by
  cases ct <;> decide

/-! ## Claims -/

/-- **C1** (amended): for every adapter id `A` and platform-native
conversation id `C` that do not contain the `':'` delimiter, the hub's
parse of `generateConversationId`'s composite id recovers exactly the
adapter id and the native conversation id. -/
theorem C1_conversationId_roundtrip (ct : ChannelType) (A C : JStr)
    (hA : ':' ∉ A) (hC : ':' ∉ C) :
    ChannelHub.parseConversationId (BaseAdapter.generateConversationId ct A C)
      = (some A, some C) := by
  have hshape : BaseAdapter.generateConversationId ct A C
      = ct.toChars ++ ':' :: (A ++ ':' :: C) := by
    simp [BaseAdapter.generateConversationId, List.append_assoc]
  unfold ChannelHub.parseConversationId
  rw [hshape, splitOnChar_append ':' _ (colon_not_mem_channelType ct),
    splitOnChar_append ':' _ hA, splitOnChar_not_mem ':' hC]
  rfl

/-- **C1 counterexample**: with adapter id `"a"` and native
conversation id `"x:y"`, parsing the generated composite id yields
native id `"x"`, not `"x:y"` — the round-trip of the claim fails for
native ids containing the delimiter. -/
theorem C1_roundtrip_counterexample :
    ChannelHub.parseConversationId
        (BaseAdapter.generateConversationId .telegram "a".data "x:y".data)
      = (some "a".data, some "x".data)
  ∧ some "x".data ≠ some "x:y".data := by
  constructor <;> decide

/-- Witness for `C1_conversationId_roundtrip` at a concrete input. -/
theorem C1_roundtrip_witness :
    ChannelHub.parseConversationId
        (BaseAdapter.generateConversationId .telegram "main".data "12345".data)
      = (some "main".data, some "12345".data) :=
  C1_conversationId_roundtrip .telegram "main".data "12345".data
    (by decide) (by decide)

/-- **C3** (amended): `setState` to `connected` from a non-connected
state emits the `connected` signal, and `setState` from `connected` to
`disconnected` emits `disconnected` with the given reason; but entering
the `error` state via `setState` emits no signal at all — the `error`
signal is emitted only by the separate `emitError` helper, with the
cause and optional context. -/
theorem C3_setState_signals (old : AdapterState) (reason : Option JStr)
    (e : JsError) (ctx : Option JStr) :
    (old ≠ .connected →
      BaseAdapter.setState old .connected reason = (.connected, [.connected]))
  ∧ BaseAdapter.setState .connected .disconnected reason
      = (.disconnected, [.disconnected reason])
  ∧ BaseAdapter.setState old .error reason = (.error, [])
  ∧ BaseAdapter.emitError e ctx = [.error e ctx] := by
  refine ⟨fun h => ?_, ?_, ?_, rfl⟩ <;>
    cases old <;> simp_all [BaseAdapter.setState]

/-- **C3 counterexample**: the transition `connecting → error` emits no
signal, contradicting the claim that entering the `error` state emits
an `error` signal. -/
theorem C3_error_state_counterexample :
    BaseAdapter.setState .connecting .error none = (.error, []) := by decide

/-- Witness for `C3_setState_signals` at a concrete input. -/
theorem C3_setState_witness :
    BaseAdapter.setState .disconnected .connected none
      = (.connected, [.connected]) :=
  (C3_setState_signals .disconnected none ⟨[]⟩ none).1 (by decide)

theorem reactions_message_decomposition :
    "Reactions not supported by ".data
      = "Reactions ".data ++ "not supported".data ++ " by ".data := by decide

/-- **C7**: the default (unoverridden) `addReaction` and
`removeReaction` reject, for every message id and emoji, with an error
whose message is literally `"Reactions " ++ "not supported" ++ " by "`
followed by the platform type — so it contains both `"not supported"`
and the platform type. -/
theorem C7_default_reactions_reject (ct : ChannelType) (messageId emoji : JStr) :
    BaseAdapter.addReaction ct messageId emoji
      = .error ⟨"Reactions ".data ++ "not supported".data ++ " by ".data ++ ct.toChars⟩
  ∧ BaseAdapter.removeReaction ct messageId emoji
      = .error ⟨"Reactions ".data ++ "not supported".data ++ " by ".data ++ ct.toChars⟩ := by
  refine ⟨?_, ?_⟩ <;>
    simp only [BaseAdapter.addReaction, BaseAdapter.removeReaction] <;>
    exact congrArg
      (fun m : JStr => (Except.error ⟨m ++ ct.toChars⟩ : Except JsError Unit))
      reactions_message_decomposition

/-- **C8**: `stop()` on a hub that is not running is a no-op — no
adapter disconnect call, no `stopped` signal, the hub state unchanged;
moreover a stop immediately following any stop is such a no-op. -/
theorem C8_stop_idempotent (hub : ChannelHub) :
    (hub.running = false → hub.stop = (hub, []))
  ∧ (hub.stop.1.stop = (hub.stop.1, [])) := by
  constructor
  · intro h
    simp [ChannelHub.stop, h]
  · by_cases h : hub.running <;> simp [ChannelHub.stop, h]

/-- Witness for `C8_stop_idempotent` at a concrete input. -/
theorem C8_stop_witness :
    (ChannelHub.mk [] false).stop = (ChannelHub.mk [] false, []) :=
  (C8_stop_idempotent (ChannelHub.mk [] false)).1 rfl

/-- **C5**: registering an adapter whose id is already in the registry
returns the thrown "already registered" error with the hub unchanged
and no signal wiring performed, and the registry still maps the id to
the originally registered adapter. -/
theorem C5_register_duplicate (hub : ChannelHub) (adapter orig : ModelAdapter)
    (h : mapGet hub.adapters adapter.id = some orig) :
    hub.registerAdapter adapter
      = (.error ⟨"Adapter with ID \"".data ++ adapter.id
          ++ "\" is already registered".data⟩, hub, [])
  ∧ mapGet (hub.registerAdapter adapter).2.1.adapters adapter.id = some orig := by
  have hreg : hub.registerAdapter adapter
      = (.error ⟨"Adapter with ID \"".data ++ adapter.id
          ++ "\" is already registered".data⟩, hub, []) := by
    simp [ChannelHub.registerAdapter, h]
  exact ⟨hreg, by rw [hreg]; exact h⟩

/-- Witness for `C5_register_duplicate` at a concrete input. -/
theorem C5_register_duplicate_witness :
    okHub.registerAdapter okAdapter
      = (.error ⟨"Adapter with ID \"".data ++ okAdapter.id
          ++ "\" is already registered".data⟩, okHub, [])
  ∧ mapGet (okHub.registerAdapter okAdapter).2.1.adapters okAdapter.id
      = some okAdapter :=
  C5_register_duplicate okHub okAdapter okAdapter rfl

/-- **C2**: `ChannelHub.send` fails with a descriptive error — and
performs no `sendMessage` invocation — when the adapter-id or
native-id segment of the conversation id is missing or empty, when the
adapter id is not registered, or when the resolved adapter is not
connected; otherwise it delegates to that adapter's `sendMessage` with
the platform-native conversation id segment. -/
theorem C2_send_error_handling (hub : ChannelHub) (conversationId : JStr)
    (content : MessageContent) (options : Option SendMessageOptions)
    (adapter : ModelAdapter) :
    ((jsFalsy (ChannelHub.parseConversationId conversationId).1
        ∨ jsFalsy (ChannelHub.parseConversationId conversationId).2) →
      hub.send conversationId content options
        = (⟨false, none, some ⟨"Invalid conversation ID format: ".data
            ++ conversationId⟩⟩, []))
  ∧ (¬(jsFalsy (ChannelHub.parseConversationId conversationId).1
        ∨ jsFalsy (ChannelHub.parseConversationId conversationId).2) →
      mapGet hub.adapters
          ((ChannelHub.parseConversationId conversationId).1.getD []) = none →
      hub.send conversationId content options
        = (⟨false, none, some ⟨"Adapter not found: ".data
            ++ (ChannelHub.parseConversationId conversationId).1.getD []⟩⟩, []))
  ∧ (¬(jsFalsy (ChannelHub.parseConversationId conversationId).1
        ∨ jsFalsy (ChannelHub.parseConversationId conversationId).2) →
      mapGet hub.adapters
          ((ChannelHub.parseConversationId conversationId).1.getD [])
        = some adapter →
      adapter.isConnected = false →
      hub.send conversationId content options
        = (⟨false, none, some ⟨"Adapter ".data
            ++ (ChannelHub.parseConversationId conversationId).1.getD []
            ++ " is not connected".data⟩⟩, []))
  ∧ (¬(jsFalsy (ChannelHub.parseConversationId conversationId).1
        ∨ jsFalsy (ChannelHub.parseConversationId conversationId).2) →
      mapGet hub.adapters
          ((ChannelHub.parseConversationId conversationId).1.getD [])
        = some adapter →
      adapter.isConnected = true →
      hub.send conversationId content options
        = (adapter.sendMessage
            ((ChannelHub.parseConversationId conversationId).2.getD [])
            content options,
           [⟨(ChannelHub.parseConversationId conversationId).1.getD [],
             (ChannelHub.parseConversationId conversationId).2.getD [],
             content, options⟩])) := by
  refine ⟨fun hmal => ?_, fun hok hnone => ?_,
    fun hok hsome hconn => ?_, fun hok hsome hconn => ?_⟩
  · simp only [ChannelHub.send]
    rw [if_pos hmal]
  · simp only [ChannelHub.send]
    rw [if_neg hok, hnone]
  · simp only [ChannelHub.send]
    rw [if_neg hok, hsome]
    simp [hconn]
  · simp only [ChannelHub.send]
    rw [if_neg hok, hsome]
    simp [hconn]

/-- Witness for `C2_send_error_handling` at a concrete input: a
well-formed id whose adapter id is unregistered. -/
theorem C2_send_witness :
    (ChannelHub.mk [] false).send "telegram:ghost:42".data
        (.text "hi".data none) none
      = (⟨false, none, some ⟨"Adapter not found: ".data ++ "ghost".data⟩⟩, []) := by
  have h := (C2_send_error_handling (ChannelHub.mk [] false)
      "telegram:ghost:42".data (.text "hi".data none) none okAdapter).2.1
      (by decide) rfl
  exact h.trans (by decide)

/-- **C6**: `reply` invokes `send` with the original message's
conversation id and with options whose `replyTo` is the original
message's platform message id (overriding any caller-supplied
`replyTo`). -/
theorem C6_reply_fills_replyTo (hub : ChannelHub)
    (originalMessage : UnifiedMessage) (content : MessageContent)
    (options : Option SendMessageOptions) :
    hub.reply originalMessage content options
      = hub.send originalMessage.conversationId content
          (some (ChannelHub.replyOptions options originalMessage.platformMessageId))
  ∧ (ChannelHub.replyOptions options originalMessage.platformMessageId).replyTo
      = some originalMessage.platformMessageId :=
  ⟨rfl, rfl⟩

/-- **C9** (amended): a conversation id splitting into four or more
`':'`-separated segments whose second (adapter id) and third (native
id) segments are nonempty is not rejected as malformed: `send` routes
by the second segment and passes exactly the third segment as the
platform-native conversation id, silently discarding every later
segment. -/
theorem C9_extra_segments_routed (hub : ChannelHub) (conversationId : JStr)
    (content : MessageContent) (options : Option SendMessageOptions)
    (adapterId platformConversationId : JStr)
    (_hlen : 4 ≤ (splitOnChar ':' conversationId).length)
    (ha : (splitOnChar ':' conversationId).get? 1 = some adapterId)
    (hane : adapterId ≠ [])
    (hp : (splitOnChar ':' conversationId).get? 2 = some platformConversationId)
    (hpne : platformConversationId ≠ []) :
    hub.send conversationId content options
      = match mapGet hub.adapters adapterId with
        | none =>
          (⟨false, none, some ⟨"Adapter not found: ".data ++ adapterId⟩⟩, [])
        | some adapter =>
          if adapter.isConnected then
            (adapter.sendMessage platformConversationId content options,
             [⟨adapterId, platformConversationId, content, options⟩])
          else
            (⟨false, none, some ⟨"Adapter ".data ++ adapterId
              ++ " is not connected".data⟩⟩, []) := by
  obtain ⟨c1, t1, rfl⟩ : ∃ c t, adapterId = c :: t := by
    cases adapterId with
    | nil => exact absurd rfl hane
    | cons c t => exact ⟨c, t, rfl⟩
  obtain ⟨c2, t2, rfl⟩ : ∃ c t, platformConversationId = c :: t := by
    cases platformConversationId with
    | nil => exact absurd rfl hpne
    | cons c t => exact ⟨c, t, rfl⟩
  simp only [ChannelHub.send, ChannelHub.parseConversationId, ha, hp, jsFalsy,
    List.isEmpty_cons, Option.getD_some]
  simp

/-- **C9 counterexample**: `"a:::b"` splits into four segments (more
than two `':'` delimiters) yet `send` rejects it as malformed, because
its adapter-id segment is empty. -/
theorem C9_counterexample :
    4 ≤ (splitOnChar ':' "a:::b".data).length
  ∧ (ChannelHub.mk [] false).send "a:::b".data (.text "hi".data none) none
      = (⟨false, none, some ⟨"Invalid conversation ID format: ".data
          ++ "a:::b".data⟩⟩, []) := by
  constructor <;> decide

/-- Witness for `C9_extra_segments_routed` at a concrete input. -/
theorem C9_extra_segments_witness :
    okHub.send "telegram:main:123:extra:junk".data (.text "hi".data none) none
      = (⟨true, none, none⟩,
         [⟨"main".data, "123".data, .text "hi".data none, none⟩]) := by
  have h := C9_extra_segments_routed okHub "telegram:main:123:extra:junk".data
      (.text "hi".data none) none "main".data "123".data
      (by decide) (by decide) (by decide) (by decide) (by decide)
  rw [h]
  rfl

/-! ## Association-list lemmas for the broadcast aggregation -/

theorem mapGet_nil {α : Type} (k : JStr) : mapGet ([] : List (JStr × α)) k = none :=
  rfl

theorem mapGet_cons {α : Type} (k1 : JStr) (v1 : α) (es : List (JStr × α))
    (k : JStr) :
    mapGet ((k1, v1) :: es) k = if k = k1 then some v1 else mapGet es k :=
  rfl

theorem mapGet_map_ne {α : Type} (m : List (JStr × α)) (k : JStr) (v : α)
    (k' : JStr) (hne : k' ≠ k) :
    mapGet (m.map (fun p => if p.1 = k then (k, v) else p)) k' = mapGet m k' := by
  induction m with
  | nil => rfl
  | cons p rest ih =>
    obtain ⟨k1, v1⟩ := p
    by_cases hp : k1 = k
    · subst hp
      simp [mapGet_cons, hne, ih]
    · simp [mapGet_cons, hp, ih]

theorem mapGet_map_self {α : Type} (m : List (JStr × α)) (k : JStr) (v : α)
    (hm : m.any (fun p => decide (p.1 = k)) = true) :
    mapGet (m.map (fun p => if p.1 = k then (k, v) else p)) k = some v := by
  induction m with
  | nil => simp at hm
  | cons p rest ih =>
    obtain ⟨k1, v1⟩ := p
    by_cases hp : k1 = k
    · subst hp
      simp [mapGet_cons]
    · have hm' : rest.any (fun p => decide (p.1 = k)) = true := by
        simp only [List.any_cons, Bool.or_eq_true, decide_eq_true_eq] at hm
        exact hm.resolve_left hp
      simp [mapGet_cons, hp, Ne.symm hp, ih hm']

theorem mapGet_any_false {α : Type} (m : List (JStr × α)) (k : JStr)
    (hm : m.any (fun p => decide (p.1 = k)) = false) :
    mapGet m k = none := by
  induction m with
  | nil => rfl
  | cons p rest ih =>
    obtain ⟨k1, v1⟩ := p
    simp only [List.any_cons, Bool.or_eq_false_iff, decide_eq_false_iff_not] at hm
    simp [mapGet_cons, Ne.symm hm.1, ih hm.2]

theorem mapGet_append_none {α : Type} (m m' : List (JStr × α)) (k : JStr)
    (hm : mapGet m k = none) : mapGet (m ++ m') k = mapGet m' k := by
  induction m with
  | nil => rfl
  | cons p rest ih =>
    obtain ⟨k1, v1⟩ := p
    rw [mapGet_cons] at hm
    by_cases hk : k = k1
    · rw [if_pos hk] at hm
      exact Option.noConfusion hm
    · rw [if_neg hk] at hm
      rw [List.cons_append, mapGet_cons, if_neg hk, ih hm]

theorem mapGet_append_some {α : Type} (m m' : List (JStr × α)) (k : JStr)
    (v : α) (hm : mapGet m k = some v) : mapGet (m ++ m') k = some v := by
  induction m with
  | nil => exact Option.noConfusion hm
  | cons p rest ih =>
    obtain ⟨k1, v1⟩ := p
    rw [mapGet_cons] at hm
    by_cases hk : k = k1
    · rw [if_pos hk] at hm
      rw [List.cons_append, mapGet_cons, if_pos hk]
      exact hm
    · rw [if_neg hk] at hm
      rw [List.cons_append, mapGet_cons, if_neg hk]
      exact ih hm

/-- `Map.set` followed by `Map.get`: the written key reads back the new
value, every other key is untouched. -/
theorem mapGet_mapSet (m : List (JStr × SendResult)) (k : JStr)
    (v : SendResult) (k' : JStr) :
    mapGet (ChannelHub.mapSet m k v) k'
      = if k' = k then some v else mapGet m k' := by
  unfold ChannelHub.mapSet
  by_cases hany : m.any (fun p => decide (p.1 = k)) = true
  · rw [if_pos hany]
    by_cases hk : k' = k
    · subst hk
      rw [if_pos rfl, mapGet_map_self m k' v hany]
    · rw [if_neg hk, mapGet_map_ne m k v k' hk]
  · rw [if_neg hany]
    have hfalse : m.any (fun p => decide (p.1 = k)) = false := by
      cases h : m.any (fun p => decide (p.1 = k)) with
      | true => exact absurd h hany
      | false => rfl
    have hnone : mapGet m k = none := mapGet_any_false m k hfalse
    by_cases hk : k' = k
    · have hnone' : mapGet m k' = none := by rw [hk]; exact hnone
      rw [if_pos hk, mapGet_append_none m [(k, v)] k' hnone', mapGet_cons,
        if_pos hk]
    · rw [if_neg hk]
      cases hmk : mapGet m k' with
      | none =>
        rw [mapGet_append_none m [(k, v)] k' hmk, mapGet_cons, if_neg hk]
        rfl
      | some w => rw [mapGet_append_some m [(k, v)] k' w hmk]

theorem broadcastStep_results (hub : ChannelHub) (c : MessageContent)
    (o : Option SendMessageOptions) (acc : ChannelHub.BroadcastResult × List SendCall)
    (cid : JStr) :
    (ChannelHub.broadcastStep hub c o acc cid).1.results
      = ChannelHub.mapSet acc.1.results cid (hub.send cid c o).1 := by
  simp only [ChannelHub.broadcastStep]
  by_cases hs : (hub.send cid c o).1.success = true
  · simp [hs]
  · simp only [hs]
    cases herr : (hub.send cid c o).1.error <;> simp [herr]

theorem broadcastStep_totalSent (hub : ChannelHub) (c : MessageContent)
    (o : Option SendMessageOptions) (acc : ChannelHub.BroadcastResult × List SendCall)
    (cid : JStr) :
    (ChannelHub.broadcastStep hub c o acc cid).1.totalSent
      = acc.1.totalSent + (if (hub.send cid c o).1.success then 1 else 0) := by
  simp only [ChannelHub.broadcastStep]
  by_cases hs : (hub.send cid c o).1.success = true
  · simp [hs]
  · simp only [hs]
    cases herr : (hub.send cid c o).1.error <;> simp [herr, hs]

theorem broadcastStep_failures (hub : ChannelHub) (c : MessageContent)
    (o : Option SendMessageOptions) (acc : ChannelHub.BroadcastResult × List SendCall)
    (cid : JStr) :
    (ChannelHub.broadcastStep hub c o acc cid).1.failures.length
      = acc.1.failures.length
        + (if !(hub.send cid c o).1.success ∧ ((hub.send cid c o).1.error).isSome
           then 1 else 0) := by
  simp only [ChannelHub.broadcastStep]
  by_cases hs : (hub.send cid c o).1.success = true
  · simp [hs]
  · simp only [hs]
    cases herr : (hub.send cid c o).1.error <;> simp [herr, hs]

theorem broadcast_fold_totalSent (hub : ChannelHub) (c : MessageContent)
    (o : Option SendMessageOptions) (cids : List JStr) :
    ∀ acc : ChannelHub.BroadcastResult × List SendCall,
    ((cids.foldl (ChannelHub.broadcastStep hub c o) acc).1.totalSent)
      = acc.1.totalSent + cids.countP (fun cid => (hub.send cid c o).1.success) := by
  induction cids with
  | nil => intro acc; simp
  | cons cid cids ih =>
    intro acc
    rw [List.foldl_cons, ih, List.countP_cons, broadcastStep_totalSent]
    by_cases hs : (hub.send cid c o).1.success = true <;> (simp [hs]; try omega)

theorem broadcast_fold_failures (hub : ChannelHub) (c : MessageContent)
    (o : Option SendMessageOptions) (cids : List JStr) :
    ∀ acc : ChannelHub.BroadcastResult × List SendCall,
    ((cids.foldl (ChannelHub.broadcastStep hub c o) acc).1.failures.length)
      = acc.1.failures.length
        + cids.countP (fun cid =>
            !(hub.send cid c o).1.success && ((hub.send cid c o).1.error).isSome) := by
  induction cids with
  | nil => intro acc; simp
  | cons cid cids ih =>
    intro acc
    rw [List.foldl_cons, ih, List.countP_cons, broadcastStep_failures]
    by_cases hs : (hub.send cid c o).1.success = true <;>
      cases herr : (hub.send cid c o).1.error <;> (simp [hs, herr]; try omega)

theorem broadcast_fold_results (hub : ChannelHub) (c : MessageContent)
    (o : Option SendMessageOptions) (cids : List JStr) :
    ∀ (acc : ChannelHub.BroadcastResult × List SendCall) (k : JStr),
    (k ∈ cids ∨ (mapGet acc.1.results k).isSome = true) →
    (mapGet ((cids.foldl (ChannelHub.broadcastStep hub c o) acc).1.results) k).isSome
      = true := by
  induction cids with
  | nil =>
    intro acc k h
    rcases h with h | h
    · simp at h
    · simpa using h
  | cons cid cids ih =>
    intro acc k h
    rw [List.foldl_cons]
    apply ih
    rcases h with h | h
    · rcases List.mem_cons.mp h with rfl | hmem
      · right
        rw [broadcastStep_results, mapGet_mapSet, if_pos rfl]
        rfl
      · left; exact hmem
    · right
      rw [broadcastStep_results, mapGet_mapSet]
      by_cases hk : k = cid <;> simp [hk, h]

theorem mapGet_mem {α : Type} (m : List (JStr × α)) (k : JStr) (v : α)
    (h : mapGet m k = some v) : (k, v) ∈ m := by
  induction m with
  | nil => exact Option.noConfusion h
  | cons p rest ih =>
    obtain ⟨k1, v1⟩ := p
    rw [mapGet_cons] at h
    by_cases hk : k = k1
    · rw [if_pos hk] at h
      subst hk
      simp only [Option.some.injEq] at h
      subst h
      exact List.mem_cons_self _ _
    · rw [if_neg hk] at h
      exact List.mem_cons_of_mem _ (ih h)

/-- Under the adapter contract, every failed `hub.send` result carries
an error: the hub's own routing failures do, and delegated failures do
by the contract. -/
theorem send_failure_has_error (hub : ChannelHub) (hc : AdapterContract hub)
    (cid : JStr) (c : MessageContent) (o : Option SendMessageOptions)
    (hf : (hub.send cid c o).1.success = false) :
    ((hub.send cid c o).1.error).isSome = true := by
  revert hf
  simp only [ChannelHub.send]
  split
  · intro _; rfl
  · split
    · intro _; rfl
    · rename_i a heq
      split
      · intro hfail
        exact hc _ (mapGet_mem _ _ _ heq) _ c o hfail
      · intro _; rfl

theorem countP_partition3 {α : Type} (p q r : α → Bool)
    (h : ∀ a, (p a).toNat + (q a).toNat + (r a).toNat = 1) (l : List α) :
    l.countP p + l.countP q + l.countP r = l.length := by
  induction l with
  | nil => simp
  | cons a l ih =>
    have ha := h a
    rw [List.countP_cons, List.countP_cons, List.countP_cons, List.length_cons]
    cases hp : p a <;> cases hq : q a <;> cases hr : r a <;>
      simp [hp, hq, hr] at ha ⊢ <;> omega

theorem countP_congr_mem {α : Type} (p q : α → Bool) (l : List α)
    (h : ∀ a ∈ l, p a = q a) : l.countP p = l.countP q := by
  induction l with
  | nil => rfl
  | cons a l ih =>
    rw [List.countP_cons, List.countP_cons, h a (List.mem_cons_self a l),
      ih (fun b hb => h b (List.mem_cons_of_mem a hb))]

theorem broadcast_totalSent_eq (hub : ChannelHub) (content : MessageContent)
    (conversationIds : List JStr) (options : Option SendMessageOptions) :
    (hub.broadcast content conversationIds options).1.totalSent
      = conversationIds.countP
          (fun cid => (hub.send cid content options).1.success) := by
  simpa [ChannelHub.broadcast] using
    broadcast_fold_totalSent hub content options conversationIds (⟨0, [], []⟩, [])

theorem broadcast_failures_eq (hub : ChannelHub) (content : MessageContent)
    (conversationIds : List JStr) (options : Option SendMessageOptions) :
    (hub.broadcast content conversationIds options).1.failures.length
      = conversationIds.countP
          (fun cid => !(hub.send cid content options).1.success
            && ((hub.send cid content options).1.error).isSome) := by
  simpa [ChannelHub.broadcast] using
    broadcast_fold_failures hub content options conversationIds (⟨0, [], []⟩, [])

theorem broadcast_results_entry (hub : ChannelHub) (content : MessageContent)
    (conversationIds : List JStr) (options : Option SendMessageOptions)
    (cid : JStr) (hmem : cid ∈ conversationIds) :
    (mapGet (hub.broadcast content conversationIds options).1.results cid).isSome
      = true := by
  simpa [ChannelHub.broadcast] using
    broadcast_fold_results hub content options conversationIds
      (⟨0, [], []⟩, []) cid (Or.inl hmem)

/-- **C4**: under the spec's adapter contract (failed sends carry an
error), every broadcast yields a `results` entry for each destination,
`totalSent` equal to the number of successful sends, and one
`failures` entry per failed send; a failure on one destination does
not abort the others. -/
theorem C4_broadcast_aggregation (hub : ChannelHub) (content : MessageContent)
    (conversationIds : List JStr) (options : Option SendMessageOptions)
    (hc : AdapterContract hub) :
    (∀ cid ∈ conversationIds,
      (mapGet (hub.broadcast content conversationIds options).1.results cid).isSome
        = true)
  ∧ (hub.broadcast content conversationIds options).1.totalSent
      = conversationIds.countP
          (fun cid => (hub.send cid content options).1.success)
  ∧ (hub.broadcast content conversationIds options).1.failures.length
      = conversationIds.countP
          (fun cid => !(hub.send cid content options).1.success) := by
  refine ⟨fun cid hmem => broadcast_results_entry hub content conversationIds
      options cid hmem,
    broadcast_totalSent_eq hub content conversationIds options, ?_⟩
  rw [broadcast_failures_eq hub content conversationIds options]
  apply countP_congr_mem
  intro cid _
  cases hs : (hub.send cid content options).1.success with
  | false =>
    have herr := send_failure_has_error hub hc cid content options hs
    simp [herr]
  | true => simp

/-- **C10**: in every broadcast result `totalSent + failures.length` is
at most the number of destinations; the inequality is strict whenever
some destination's send returns `success = false` with no error value
(counted in neither aggregate), and such a destination still gets a
`results` entry like every other. -/
theorem C10_broadcast_counts (hub : ChannelHub) (content : MessageContent)
    (conversationIds : List JStr) (options : Option SendMessageOptions) :
    (hub.broadcast content conversationIds options).1.totalSent
        + (hub.broadcast content conversationIds options).1.failures.length
      ≤ conversationIds.length
  ∧ ((∃ cid ∈ conversationIds,
        (hub.send cid content options).1.success = false
        ∧ (hub.send cid content options).1.error = none) →
      (hub.broadcast content conversationIds options).1.totalSent
          + (hub.broadcast content conversationIds options).1.failures.length
        < conversationIds.length)
  ∧ ∀ cid ∈ conversationIds,
      (mapGet (hub.broadcast content conversationIds options).1.results cid).isSome
        = true := by
  have hpart := countP_partition3
    (fun cid => (hub.send cid content options).1.success)
    (fun cid => !(hub.send cid content options).1.success
      && ((hub.send cid content options).1.error).isSome)
    (fun cid => !(hub.send cid content options).1.success
      && ((hub.send cid content options).1.error).isNone)
    (by
      intro cid
      cases hs : (hub.send cid content options).1.success <;>
        cases herr : (hub.send cid content options).1.error <;>
        simp [hs, herr])
    conversationIds
  have htot := broadcast_totalSent_eq hub content conversationIds options
  have hfail := broadcast_failures_eq hub content conversationIds options
  refine ⟨?_, ?_, fun cid hmem =>
    broadcast_results_entry hub content conversationIds options cid hmem⟩
  · rw [htot, hfail]
    omega
  · rintro ⟨cid, hmem, hfalse, herrnone⟩
    have hpos : 0 < conversationIds.countP
        (fun cid => !(hub.send cid content options).1.success
          && ((hub.send cid content options).1.error).isNone) :=
      List.countP_pos_iff.mpr ⟨cid, hmem, by simp [hfalse, herrnone]⟩
    rw [htot, hfail]
    omega


/-- Witness for `C4_broadcast_aggregation` at a concrete input: the
first destination succeeds, the second (unregistered adapter) fails
with an error; both get a result entry. -/
theorem C4_broadcast_witness :
    (okHub.broadcast (.text "hi".data none)
        ["telegram:main:1".data, "telegram:ghost:2".data] none).1.totalSent = 1
  ∧ (okHub.broadcast (.text "hi".data none)
        ["telegram:main:1".data, "telegram:ghost:2".data] none).1.failures.length
      = 1
  ∧ (mapGet (okHub.broadcast (.text "hi".data none)
        ["telegram:main:1".data, "telegram:ghost:2".data] none).1.results
        "telegram:main:1".data).isSome = true
  ∧ (mapGet (okHub.broadcast (.text "hi".data none)
        ["telegram:main:1".data, "telegram:ghost:2".data] none).1.results
        "telegram:ghost:2".data).isSome = true := by
  have hc : AdapterContract okHub := by
    intro p hp pid c o hfail
    simp only [okHub, List.mem_singleton] at hp
    subst hp
    simp [okAdapter] at hfail
  have h := C4_broadcast_aggregation okHub (.text "hi".data none)
      ["telegram:main:1".data, "telegram:ghost:2".data] none hc
  exact ⟨h.2.1.trans (by decide), h.2.2.trans (by decide),
    h.1 _ (by decide), h.1 _ (by decide)⟩

/-- Witness for `C10_broadcast_counts` at a concrete input: a
destination whose adapter fails without an error value is counted in
neither `totalSent` nor `failures`, yet still receives a results
entry. -/
theorem C10_broadcast_witness :
    (silentFailHub.broadcast (.text "hi".data none) ["whatsapp:quiet:1".data]
        none).1.totalSent
      + (silentFailHub.broadcast (.text "hi".data none) ["whatsapp:quiet:1".data]
        none).1.failures.length
      < (["whatsapp:quiet:1".data] : List JStr).length
  ∧ (mapGet (silentFailHub.broadcast (.text "hi".data none)
        ["whatsapp:quiet:1".data] none).1.results "whatsapp:quiet:1".data).isSome
      = true := by
  have h := C10_broadcast_counts silentFailHub (.text "hi".data none)
      ["whatsapp:quiet:1".data] none
  exact ⟨h.2.1 (by decide), h.2.2 _ (by decide)⟩
